import Mathlib

/-!
Shallow embedding of the lumatic-glare-removal pipeline.

Two programs are modelled:

* the remote-side driver `src/scripts/sprite-process-image.ts` (reads
  `/tmp/input/glare.jpg`, drives the Gemini web UI, extracts the produced
  image through a four-method chain, exits non-zero on failure), and
* the local orchestrator (`sprite-orchestrator.ts`): discovery of
  unprocessed image sets (`findUnprocessedSets`), the wrapped exec bridge
  (`sprite` / `spriteCmd` / `uploadFile`), per-set processing
  (`processSet`) and the entry point (`main`).

External effects (the filesystem, the browser page, the exec bridge) are
modelled as explicit environment records; every branch of the translated
functions mirrors a branch of the TypeScript source.
-/

namespace Glare

/-! ## Embeddings of the JavaScript string methods used by the scripts -/

/-- Embedding of JavaScript `String.prototype.startsWith`: the pattern's
characters are a prefix of the subject's characters. -/
def strStartsWith (s pat : String) : Bool := pat.data.isPrefixOf s.data

/-- Embedding of JavaScript `String.prototype.endsWith`. -/
def strEndsWith (s pat : String) : Bool := pat.data.isSuffixOf s.data

/-- Embedding of JavaScript `String.prototype.includes` (substring test). -/
def strIncludes (s pat : String) : Bool := decide (pat.data <:+: s.data)

/-! ## Base64 decoding

Model of Node's `Buffer.from(s, 'base64')`.  Node decodes forgivingly:
characters outside the base64 alphabet (including `=` padding and
whitespace) are skipped, and the remaining 6-bit digits are packed into
bytes, a trailing group of fewer than four digits contributing
correspondingly fewer bytes. -/

/-- Value of a base64 alphabet character, `none` for any other character. -/
def b64val (c : Char) : Option Nat :=
  if 'A' ≤ c ∧ c ≤ 'Z' then some (c.toNat - 'A'.toNat)
  else if 'a' ≤ c ∧ c ≤ 'z' then some (c.toNat - 'a'.toNat + 26)
  else if '0' ≤ c ∧ c ≤ '9' then some (c.toNat - '0'.toNat + 52)
  else if c = '+' then some 62
  else if c = '/' then some 63
  else none

/-- Pack a list of 6-bit digits into bytes, three bytes per four digits. -/
def b64bytes : List Nat → List Nat
  | a :: b :: c :: d :: rest =>
      (a * 4 + b / 16) :: ((b % 16) * 16 + c / 4) :: ((c % 4) * 64 + d) :: b64bytes rest
  | [a, b, c] => [a * 4 + b / 16, (b % 16) * 16 + c / 4]
  | [a, b] => [a * 4 + b / 16]
  | _ => []

/-- Embedding of `Buffer.from(s, 'base64')`, returning the byte list. -/
def b64decode (s : String) : List Nat := b64bytes (s.data.filterMap b64val)

/-! ## Orchestrator: job discovery (`findUnprocessedSets`)

Source: `sprite-orchestrator.ts`, lines 179–207.  For each of the two
category directories the folder names are read, sorted, non-directories
skipped, and a folder becomes a job iff it contains a `glare`-prefixed
`.jpg` file and no `gemini_result`-prefixed file. -/

/-- Source: `files.some((f) => f.startsWith('glare') && f.endsWith('.jpg'))`. -/
def hasGlare (files : List String) : Bool :=
  files.any fun f => strStartsWith f "glare" && strEndsWith f ".jpg"

/-- Source: `files.some((f) => f.startsWith('gemini_result'))`. -/
def hasResult (files : List String) : Bool :=
  files.any fun f => strStartsWith f "gemini_result"

/-- The two corpus categories iterated by `findUnprocessedSets`. -/
inductive Category
  | with_reference
  | without_reference
deriving DecidableEq, Repr

/-- Directory name of a category under the test-set root. -/
def categoryName : Category → String
  | .with_reference => "with_reference"
  | .without_reference => "without_reference"

/-- One directory entry of a category directory: its name, whether
`statSync(...).isDirectory()` holds, and the file names `readdirSync`
returns inside it. -/
structure DirEntry where
  name : String
  isDir : Bool
  files : List String
deriving DecidableEq, Repr

/-- The `ImageSet` record pushed by `findUnprocessedSets`. -/
structure ImageSet where
  folder : String
  fullPath : String
  category : Category
  hasReference : Bool
deriving DecidableEq, Repr

/-- Corpus root; `path.resolve(import.meta.dirname, '../raw_examples/test_set')`
is environment dependent, modelled by its relative form. -/
def TEST_SET_PATH : String := "raw_examples/test_set"

/-- The `ImageSet` built for a folder of a category
(`hasReference: category === 'with_reference'`). -/
def mkSet (c : Category) (e : DirEntry) : ImageSet :=
  { folder := e.name
    fullPath := TEST_SET_PATH ++ "/" ++ categoryName c ++ "/" ++ e.name
    category := c
    hasReference := decide (c = Category.with_reference) }

/-- The on-disk corpus as seen by the orchestrator: the entry list of each
category directory, `none` when `fs.existsSync(catPath)` is false. -/
structure Corpus where
  withRef : Option (List DirEntry)
  withoutRef : Option (List DirEntry)

/-- Category directory lookup used by the scan. -/
def entriesOf (corp : Corpus) : Category → Option (List DirEntry)
  | .with_reference => corp.withRef
  | .without_reference => corp.withoutRef

/-- Scan of one category: `readdirSync(catPath).sort()`, skip
non-directories, keep folders with `hasGlare && !hasResult`. -/
def scanCategory (c : Category) : Option (List DirEntry) → List ImageSet
  | none => []
  | some es =>
      ((es.mergeSort fun a b => decide (a.name ≤ b.name)).filter
          fun e => e.isDir && hasGlare e.files && !hasResult e.files).map (mkSet c)

/-- Translation of `findUnprocessedSets` (both categories, in order). -/
def findUnprocessedSets (corp : Corpus) : List ImageSet :=
  scanCategory .with_reference (entriesOf corp .with_reference) ++
    scanCategory .without_reference (entriesOf corp .without_reference)

/-! ## Driver: extraction strategy chain

Source: `sprite-process-image.ts`, lines 194–334.  Four methods are tried
in order; the loops over candidate images run from the last `img` element
to the first and stop at the first success (`i >= 0 && !downloaded`).
Each candidate interaction with the live page is modelled by the fields
of `Img`:

* `box` — `img.boundingBox()`, `none` when the call throws;
* `hoverDownload` — the bytes of the file captured by method 1 for this
  image (`none` when no download control appears, the download event
  times out, or `download.path()` is null);
* `fetchData` — the bytes produced by the method-3 in-page fetch
  (`none` when `naturalWidth < 150`, the `src` is a `data:` URL, the
  fetch fails, or the read fails);
* `canvasData` — the bytes produced by the method-4 canvas serialization
  (`none` when `naturalWidth < 150`, no 2d context, or `drawImage`
  throws). -/

/-- One `img` element of the page, with the outcomes of the per-image
page interactions of extraction methods 1, 3 and 4. -/
structure Img where
  box : Option (ℚ × ℚ)
  hoverDownload : Option (List Nat)
  fetchData : Option (List Nat)
  canvasData : Option (List Nat)

/-- Source guard of every candidate loop:
`if (!box || box.width < 150 || box.height < 150) continue;`. -/
def bigBox (i : Img) : Bool :=
  match i.box with
  | none => false
  | some (w, h) => !(decide (w < 150) || decide (h < 150))

/-- Method 1 (hover to reveal the download icon): the captured download is
copied to the output path with no size check. -/
def method1 (imgs : List Img) : Option (List Nat) :=
  imgs.reverse.findSome? fun i => if bigBox i then i.hoverDownload else none

/-- Method 2 (page-level download button): the captured download is copied
to the output path with no size check.  The whole button interaction is
the environment's `directDownload` field. -/
def method2 (directDownload : Option (List Nat)) : Option (List Nat) :=
  directDownload

/-- Source guard of methods 3 and 4:
`if (buffer.length > 30000) { ... downloaded = true; }`. -/
def acceptLarge : Option (List Nat) → Option (List Nat)
  | some buf => if 30000 < buf.length then some buf else none
  | none => none

/-- Method 3 (authenticated fetch of the image `src`), with the
30,000-byte acceptance guard. -/
def method3 (imgs : List Img) : Option (List Nat) :=
  imgs.reverse.findSome? fun i => if bigBox i then acceptLarge i.fetchData else none

/-- Method 4 (canvas re-draw extraction), with the 30,000-byte
acceptance guard. -/
def method4 (imgs : List Img) : Option (List Nat) :=
  imgs.reverse.findSome? fun i => if bigBox i then acceptLarge i.canvasData else none

/-- The four-method chain, first success wins (`if (!downloaded) ...`);
the returned buffer is the one written to `/tmp/output/gemini_result.jpg`. -/
def runChainOn (imgs : List Img) (directDownload : Option (List Nat)) :
    Option (List Nat) :=
  match method1 imgs with
  | some buf => some buf
  | none =>
    match method2 directDownload with
    | some buf => some buf
    | none =>
      match method3 imgs with
      | some buf => some buf
      | none => method4 imgs

/-! ## Driver: response-wait loop

Source: `sprite-process-image.ts`, lines 159–192.  After submission the
driver polls the page every 5000 ms, for up to `responseTimeout = 90000`
ms, for the joint settle condition; reaching the ceiling leaves the loop
without an error. -/

/-- One poll's page observations: the count matched by the in-progress
locators, the current `img` count, the count matched by the
model-response locators, and `promptInput.isVisible()`. -/
structure Tick where
  generatingCount : Nat
  imageCount : Nat
  responseImages : Nat
  inputReady : Bool

/-- Source settle condition:
`!isGenerating && (newImages > 0 || responseImages > 0) && inputReady`
with `newImages = currentImageCount - initialImageCount` (JavaScript
number subtraction, hence the signed comparison). -/
def settled (initialImageCount : Nat) (t : Tick) : Bool :=
  !(decide (0 < t.generatingCount)) &&
    (decide ((0 : Int) < (t.imageCount : Int) - (initialImageCount : Int)) ||
      decide (0 < t.responseImages)) &&
    t.inputReady

/-- The polling loop: `obs k` is the page state seen by the k-th
iteration; each unsettled iteration advances the clock by the fixed
5000 ms `waitForTimeout`.  Returns whether the loop settled (`break`)
before the 90000 ms ceiling. -/
def awaitFrom (obs : Nat → Tick) (initialImageCount : Nat)
    (k : Nat) (elapsed : Nat) : Bool :=
  if elapsed < 90000 then
    if settled initialImageCount (obs k) then true
    else awaitFrom obs initialImageCount (k + 1) (elapsed + 5000)
  else false
termination_by 90000 - elapsed
decreasing_by omega

/-- The whole response wait (`startTime = Date.now()`, loop from zero). -/
def awaitResponse (obs : Nat → Tick) (initialImageCount : Nat) : Bool :=
  awaitFrom obs initialImageCount 0 0

/-! ## Driver: main flow

Source: `sprite-process-image.ts`, `main` (lines 35–366).  The
environment record collects every external outcome the control flow
branches on; `timeoutFires` is whether the 3-minute `Promise.race`
timeout pre-empts the process promise. -/

/-- Fixed prompt template of reference mode (source lines 27–28). -/
def PROMPT_WITH_REFERENCE : String :=
  "Edit the first image to remove the glare from the glasses. Use the second image as reference for the eyes. Keep everything else exactly the same."

/-- Fixed prompt template of no-reference mode (source lines 30–31). -/
def PROMPT_WITHOUT_REFERENCE : String :=
  "Edit this image to remove the glare from the glasses. Keep everything else exactly the same."

/-- External outcomes one driver invocation runs against. -/
structure DriverEnv where
  withReference : Bool
  glareExists : Bool
  clearExists : Bool
  inputAreaVisible : Bool
  initialImageCount : Nat
  obs : Nat → Tick
  images : List Img
  directDownload : Option (List Nat)
  timeoutFires : Bool

/-- Reference-mode selection (source lines 51–65): the `imagePaths` list,
the prompt, and the mode log line. -/
def selectInputs (e : DriverEnv) : List String × String × List String :=
  if e.withReference then
    if e.clearExists then
      (["/tmp/input/glare.jpg", "/tmp/input/clear.jpg"], PROMPT_WITH_REFERENCE,
        ["Mode: with reference image"])
    else
      (["/tmp/input/glare.jpg"], PROMPT_WITHOUT_REFERENCE,
        ["Reference image not found, proceeding without"])
  else
    (["/tmp/input/glare.jpg"], PROMPT_WITHOUT_REFERENCE,
      ["Mode: without reference image"])

/-- Observable outcome of one driver invocation: the `imagePaths` list
and prompt it selected, its mode log, and the terminal result (`ok`
carries the buffer written to the output path and emitted as
`BASE64_RESULT:`; `error` carries the message of the non-zero exit). -/
structure DriverTrace where
  imagePaths : List String
  prompt : String
  logs : List String
  result : Except String (List Nat)

/-- The extraction step of the driver: chain success or the
`Could not download generated image` error (source lines 332–334). -/
def extractionResult (e : DriverEnv) : Except String (List Nat) :=
  match runChainOn e.images e.directDownload with
  | some buf => Except.ok buf
  | none => Except.error "Could not download generated image"

/-- Translation of the driver's `main`: the missing-input check (lines
43–49, direct `process.exit(1)`), mode selection, the 3-minute race, the
prompt-surface check (lines 134–141), the response wait (its outcome is
not branched on) and extraction. -/
def driverRun (e : DriverEnv) : DriverTrace :=
  if !e.glareExists then
    { imagePaths := [], prompt := "", logs := []
      result := Except.error "ERROR: /tmp/input/glare.jpg not found" }
  else
    let sel := selectInputs e
    if e.timeoutFires then
      { imagePaths := sel.1, prompt := sel.2.1, logs := sel.2.2
        result := Except.error "TIMEOUT: Process exceeded 3 minutes" }
    else if !e.inputAreaVisible then
      { imagePaths := sel.1, prompt := sel.2.1, logs := sel.2.2
        result := Except.error "Input area not found" }
    else
      let _settled := awaitResponse e.obs e.initialImageCount
      { imagePaths := sel.1, prompt := sel.2.1, logs := sel.2.2
        result := extractionResult e }

/-- Process exit status of the driver: `process.exit(1)` on any failure,
0 when the process promise resolves. -/
def driverExit (e : DriverEnv) : Nat :=
  match (driverRun e).result with
  | Except.ok _ => 0
  | Except.error _ => 1

/-! ## Orchestrator: exec bridge wrappers and per-set processing

Source: `sprite-orchestrator.ts`.  `execSync` either returns the
command's stdout or throws an error object that still carries the
partial stdout; `sprite`/`spriteCmd` catch that error, log it, and
return `e.stdout?.toString() || ''`, while `uploadFile` (lines 232–238)
invokes `execSync` with no try/catch, so its failure propagates. -/

/-- Outcome of one underlying `execSync` call: whether it succeeded and
the (possibly partial) stdout it produced. -/
structure CmdResult where
  ok : Bool
  stdout : String
deriving DecidableEq, Repr

/-- Bare `execSync`: stdout on success, thrown error (carrying the
partial stdout) on failure. -/
def execSyncM (r : CmdResult) : Except String String :=
  if r.ok then Except.ok r.stdout else Except.error r.stdout

/-- Translation of `sprite(cmd)` (lines 151–160): the failure is caught,
logged, and surfaces as the partial stdout — this wrapper never throws. -/
def sprite (r : CmdResult) : String :=
  match execSyncM r with
  | Except.ok out => out.trim
  | Except.error caughtOut => caughtOut

/-- Translation of `spriteCmd(args)` (lines 162–170): same catch-and-log
wrapping as `sprite`. -/
def spriteCmd (r : CmdResult) : String :=
  match execSyncM r with
  | Except.ok out => out.trim
  | Except.error caughtOut => caughtOut

/-- Translation of `uploadFile` (lines 232–238): bare `execSync`, no
try/catch — a failure is an uncaught exception. -/
def uploadFile (r : CmdResult) : Except String Unit := do
  let _ ← execSyncM r
  pure ()

/-- Exec-bridge outcomes one `processSet` call runs against, plus the
fresh `readdirSync(set.fullPath)` listing (step 3). -/
structure JobEnv where
  restoreRes : CmdResult
  killallRes : CmdResult
  psRes : CmdResult
  xvfbRes : CmdResult
  mkdirRes : CmdResult
  rmRes : CmdResult
  files : List String
  uploadGlareRes : CmdResult
  uploadClearRes : CmdResult
  driverRes : CmdResult
deriving DecidableEq, Repr

/-- One job as the sequencer processes it: the discovered `ImageSet` and
the environment its processing encounters. -/
structure SetJob where
  set : ImageSet
  env : JobEnv

/-- The distinguished stdout line marker (source line 12 and 290). -/
def resultMarker : String := "BASE64_RESULT:"

/-- Source `b64Line.replace('BASE64_RESULT:', '')`: JavaScript `replace`
removes the first occurrence, which on a line starting with the marker
is exactly the marker's characters. -/
def stripMarker (l : String) : String :=
  String.mk (l.data.drop resultMarker.data.length)

/-- Steps 5–6 of `processSet` (lines 289–309): find the marker line,
decode it, reject a result of fewer than 30,000 bytes
(`buffer.length < 30000`), otherwise return the buffer that is written
to `gemini_result.jpg`. -/
def processResultStep (lines : List String) : Option (List Nat) :=
  match lines.find? (fun l => strStartsWith l resultMarker) with
  | none => none
  | some l =>
    if (b64decode (stripMarker l)).length < 30000 then none
    else some (b64decode (stripMarker l))

/-- Translation of `processSet` (lines 240–310).  Restore and prepare go
through the catching wrappers; the uploads go through the bare
`uploadFile`, so the `Except` layer records exactly the uncaught
exceptions.  `ok (some buf)` means `gemini_result.jpg` was written with
`buf` and the job counted succeeded; `ok none` means the job counted
failed. -/
def processSet (j : SetJob) : Except String (Option (List Nat)) := do
  let _restore := spriteCmd j.env.restoreRes
  let _killall := sprite j.env.killallRes
  let xvfbRunning := sprite j.env.psRes
  let _xvfb := if xvfbRunning = "0" then sprite j.env.xvfbRes else ""
  let _mkdir := sprite j.env.mkdirRes
  let _rm := sprite j.env.rmRes
  match j.env.files.find?
      (fun f => strStartsWith f "glare" && strEndsWith f ".jpg") with
  | none => pure none
  | some _glareFile => do
    let _ ← uploadFile j.env.uploadGlareRes
    if j.set.hasReference then
      match j.env.files.find?
          (fun f => strStartsWith f "clear" && strEndsWith f ".jpg") with
      | some _clearFile => do
        let _ ← uploadFile j.env.uploadClearRes
        pure ()
      | none => pure ()
    else
      pure ()
    let output := sprite j.env.driverRes
    let lines := output.splitOn "\n"
    pure (processResultStep lines)

/-- The sequential job loop of `main` (lines 350–354): each job's
success increments `success`, failure increments `failed`; an uncaught
exception (only an upload failure) aborts the loop. -/
def runJobs : List SetJob → Except String (Nat × Nat)
  | [] => Except.ok (0, 0)
  | j :: rest => do
    let ok ← processSet j
    let (s, f) ← runJobs rest
    match ok with
    | some _ => pure (s + 1, f)
    | none => pure (s, f + 1)

/-- The `--set` substring filter of `main` (line 324). -/
def applyFilter (singleSet : Option String) (sets : List SetJob) : List SetJob :=
  match singleSet with
  | some sub => sets.filter fun j => strIncludes j.set.folder sub
  | none => sets

/-- Exit status of the orchestrator process.  `disc` is the outcome of
the `findUnprocessedSets()` call (an exception there reaches
`main().catch`, exit 1); every `process.exit(0)` path (no match for
`--set`, `--dry-run`, empty set, loop completion with summary) is 0; an
uncaught exception in the job loop reaches `main().catch`, exit 1. -/
def orchestratorRun (disc : Except String (List SetJob)) (dryRun : Bool)
    (singleSet : Option String) : Nat :=
  match disc with
  | Except.error _ => 1
  | Except.ok sets0 =>
    let sets := applyFilter singleSet sets0
    if singleSet.isSome && sets.isEmpty then 0
    else if dryRun then 0
    else if sets.isEmpty then 0
    else
      match runJobs sets with
      | Except.ok _ => 0
      | Except.error _ => 1

/-! ## Concrete inputs used by witnesses and counterexamples -/

/-- A 100-byte buffer, well below the 30,000-byte threshold. -/
def c1SmallBuf : List Nat := List.replicate 100 0

/-- A large candidate image whose hover interaction captures a 100-byte
download. -/
def c1Img : Img :=
  { box := some (200, 200), hoverDownload := some c1SmallBuf
    fetchData := none, canvasData := none }

/-- Driver environment whose only candidate yields the tiny method-1
download. -/
def c1Env : DriverEnv :=
  { withReference := false, glareExists := true, clearExists := false
    inputAreaVisible := true, initialImageCount := 0
    obs := fun _ => { generatingCount := 0, imageCount := 0, responseImages := 0, inputReady := true }
    images := [c1Img], directDownload := none, timeoutFires := false }

/-- A large candidate whose method-3 fetch yields 30,001 bytes. -/
def c1BigImg : Img :=
  { box := some (200, 200), hoverDownload := none
    fetchData := some (List.replicate 30001 0), canvasData := none }

/-- A candidate image whose bounding box is exactly 150×150 and whose
method-3 fetch yields an above-threshold buffer. -/
def c9Img : Img :=
  { box := some (150, 150), hoverDownload := none
    fetchData := some (List.replicate 30001 0), canvasData := none }

/-- A 200×200 candidate used to instantiate the box-guard reading. -/
def c9WitImg : Img :=
  { box := some (200, 200), hoverDownload := none
    fetchData := none, canvasData := none }

/-- Driver environment for the reference-degradation witness: reference
mode requested, reference file absent, everything else healthy. -/
def c5Env : DriverEnv :=
  { withReference := true, glareExists := true, clearExists := false
    inputAreaVisible := true, initialImageCount := 0
    obs := fun _ => { generatingCount := 0, imageCount := 1, responseImages := 0, inputReady := true }
    images := [c1Img], directDownload := none, timeoutFires := false }

/-- A page state that never settles: the in-progress indicator stays. -/
def c6Tick : Tick :=
  { generatingCount := 1, imageCount := 0, responseImages := 0, inputReady := false }

/-- An image whose hover download succeeds with a 3-byte file. -/
def c6Img : Img :=
  { box := some (300, 300), hoverDownload := some [1, 2, 3]
    fetchData := none, canvasData := none }

/-- Driver environment whose response wait never settles but whose
extraction succeeds. -/
def c6Env : DriverEnv :=
  { withReference := false, glareExists := true, clearExists := false
    inputAreaVisible := true, initialImageCount := 0
    obs := fun _ => c6Tick
    images := [c6Img], directDownload := none, timeoutFires := false }

/-- An exec-bridge environment in which every command succeeds, the set
folder holds only the glare image, and the driver output carries no
result marker. -/
def c8JobEnv : JobEnv :=
  { restoreRes := { ok := true, stdout := "ok" }
    killallRes := { ok := true, stdout := "ready" }
    psRes := { ok := true, stdout := "1" }
    xvfbRes := { ok := true, stdout := "" }
    mkdirRes := { ok := true, stdout := "" }
    rmRes := { ok := true, stdout := "" }
    files := ["glare.jpg"]
    uploadGlareRes := { ok := true, stdout := "uploaded" }
    uploadClearRes := { ok := true, stdout := "uploaded" }
    driverRes := { ok := true, stdout := "FAILED: no image" } }

/-- A job that fails (no result in the driver output) without throwing. -/
def c8Job : SetJob :=
  { set := { folder := "001_a", fullPath := "p1", category := .without_reference
             hasReference := false }
    env := c8JobEnv }

/-- A job whose glare upload command fails: `uploadFile` has no
try/catch, so this failure is an uncaught exception. -/
def c2BadJob : SetJob :=
  { set := { folder := "002_b", fullPath := "p2", category := .without_reference
             hasReference := false }
    env := { c8JobEnv with uploadGlareRes := { ok := false, stdout := "" } } }

/-- A healthy job queued after the failing upload. -/
def c2NextJob : SetJob :=
  { set := { folder := "003_c", fullPath := "p3", category := .without_reference
             hasReference := false }
    env := c8JobEnv }

/-- A job whose remote driver invocation itself fails (`sprite exec`
error): the wrapper catches it and surfaces partial output. -/
def c2OkJob : SetJob :=
  { set := { folder := "004_d", fullPath := "p4", category := .without_reference
             hasReference := false }
    env := { c8JobEnv with driverRes := { ok := false, stdout := "half a log" } } }

/-- A job used to instantiate the orchestrator-write theorem. -/
def c4Job : SetJob :=
  { set := { folder := "005_e", fullPath := "p5", category := .without_reference
             hasReference := false }
    env := { c8JobEnv with driverRes := { ok := true, stdout := "hello" } } }

/-- A stdout line carrying the result marker followed by 40,000 base64
characters, decoding to exactly 30,000 bytes. -/
def c4Line : String := String.mk (resultMarker.data ++ List.replicate 40000 'A')

/-- Corpus directory holding a glare image and nothing else. -/
def c3Entry : DirEntry := { name := "001_a", isDir := true, files := ["glare.jpg"] }

/-- One-directory corpus for the discovery witness. -/
def c3Corpus : Corpus := { withRef := some [c3Entry], withoutRef := some [] }

/-- Directory whose glare image is a `.png`: discovery must skip it. -/
def c10Entry : DirEntry := { name := "002_b", isDir := true, files := ["glare.png"] }

/-- One-directory corpus for the extension-sensitivity witness. -/
def c10Corpus : Corpus := { withRef := some [c10Entry], withoutRef := some [] }

/-! ### Discovery membership lemmas -/

lemma mem_scanCategory_iff {c : Category} {es : List DirEntry} {s : ImageSet} :
    s ∈ scanCategory c (some es) ↔
      ∃ e ∈ es, (e.isDir && hasGlare e.files && !hasResult e.files) = true ∧
        s = mkSet c e := by
  unfold scanCategory
  simp only [List.mem_map, List.mem_filter, List.mem_mergeSort]
  constructor
  · rintro ⟨e, ⟨he, hcond⟩, rfl⟩
    exact ⟨e, he, hcond, rfl⟩
  · rintro ⟨e, he, hcond, rfl⟩
    exact ⟨e, ⟨he, hcond⟩, rfl⟩

lemma category_of_mem_scanCategory {c : Category} {o : Option (List DirEntry)}
    {s : ImageSet} (h : s ∈ scanCategory c o) : s.category = c := by
  cases o with
  | none => simp [scanCategory] at h
  | some es =>
    rcases mem_scanCategory_iff.mp h with ⟨e, -, -, rfl⟩
    rfl

lemma mkSet_mem_findUnprocessedSets_iff {corp : Corpus} {c : Category}
    {es : List DirEntry} {e : DirEntry}
    (hes : entriesOf corp c = some es)
    (hnd : (es.map DirEntry.name).Nodup) (he : e ∈ es) :
    mkSet c e ∈ findUnprocessedSets corp ↔
      (e.isDir && hasGlare e.files && !hasResult e.files) = true := by
  have hinj := List.inj_on_of_nodup_map hnd
  have hscan : mkSet c e ∈ scanCategory c (entriesOf corp c) ↔
      (e.isDir && hasGlare e.files && !hasResult e.files) = true := by
    rw [hes, mem_scanCategory_iff]
    constructor
    · rintro ⟨e2, he2, hcond, heq⟩
      have hname : e.name = e2.name := congrArg ImageSet.folder heq
      have : e = e2 := hinj he he2 hname
      rw [this]; exact hcond
    · intro hcond
      exact ⟨e, he, hcond, rfl⟩
  have hother : ∀ c2, c2 ≠ c → mkSet c e ∉ scanCategory c2 (entriesOf corp c2) := by
    intro c2 hne hmem
    exact hne ((category_of_mem_scanCategory hmem).symm)
  unfold findUnprocessedSets
  rw [List.mem_append]
  cases c with
  | with_reference =>
    have h2 := hother Category.without_reference (by simp)
    constructor
    · rintro (h | h)
      · exact hscan.mp h
      · exact absurd h h2
    · intro hcond
      exact Or.inl (hscan.mpr hcond)
  | without_reference =>
    have h2 := hother Category.with_reference (by simp)
    constructor
    · rintro (h | h)
      · exact absurd h h2
      · exact hscan.mp h
    · intro hcond
      exact Or.inr (hscan.mpr hcond)

lemma hasGlare_eq_false_of_no_glare {files : List String}
    (h : ∀ f ∈ files, strStartsWith f "glare" = false) :
    hasGlare files = false := by
  rw [hasGlare, List.any_eq_false]
  intro f hf hand
  rw [Bool.and_eq_true] at hand
  rw [h f hf] at hand
  exact Bool.false_ne_true hand.1

lemma hasGlare_eq_false_of_no_glare_jpg {files : List String}
    (h : ∀ f ∈ files, ¬(strStartsWith f "glare" = true ∧ strEndsWith f ".jpg" = true)) :
    hasGlare files = false := by
  rw [hasGlare, List.any_eq_false]
  intro f hf hand
  rw [Bool.and_eq_true] at hand
  exact h f hf hand

lemma hasResult_eq_true_of_mem {files : List String} {f : String}
    (hf : f ∈ files) (h : strStartsWith f "gemini_result" = true) :
    hasResult files = true := by
  rw [hasResult, List.any_eq_true]
  exact ⟨f, hf, h⟩

/-! ### Extraction-chain lemmas -/

lemma exists_of_findSome_eq_some {α β : Type} {f : α → Option β} {b : β} :
    ∀ {l : List α}, l.findSome? f = some b → ∃ a ∈ l, f a = some b := by
  intro l
  induction l with
  | nil => intro h; rw [List.findSome?_nil] at h; exact absurd h (by simp)
  | cons a as ih =>
    intro h
    rw [List.findSome?_cons] at h
    cases hfa : f a with
    | some b2 =>
      rw [hfa] at h
      exact ⟨a, List.mem_cons_self a as, by rw [hfa]; exact h⟩
    | none =>
      rw [hfa] at h
      rcases ih h with ⟨x, hx, hfx⟩
      exact ⟨x, List.mem_cons_of_mem a hx, hfx⟩

lemma findSome_guard_eq_filter {α β : Type} (p : α → Bool) (f : α → Option β) :
    ∀ l : List α,
      (l.findSome? fun a => if p a then f a else none) = (l.filter p).findSome? f := by
  intro l
  induction l with
  | nil => rfl
  | cons a as ih =>
    cases hpa : p a with
    | true => simp [List.findSome?_cons, List.filter_cons, hpa, ih]
    | false => simp [List.findSome?_cons, List.filter_cons, hpa, ih]

lemma findSome_singleton {α β : Type} (f : α → Option β) (a : α) :
    List.findSome? f [a] = f a := by
  cases h : f a <;> simp [List.findSome?_cons, h]

lemma acceptLarge_eq_some {d : Option (List Nat)} {buf : List Nat}
    (h : acceptLarge d = some buf) : 30000 < buf.length := by
  cases d with
  | none => exact absurd h (by simp [acceptLarge])
  | some b =>
    rw [acceptLarge] at h
    by_cases hlen : 30000 < b.length
    · rw [if_pos hlen] at h
      cases h
      exact hlen
    · rw [if_neg hlen] at h
      exact absurd h (by simp)

/-! ### Response-wait lemmas -/

lemma awaitFrom_true_iff (obs : Nat → Tick) (n : Nat) :
    ∀ (k elapsed : Nat),
      awaitFrom obs n k elapsed = true ↔
        ∃ i, elapsed + 5000 * i < 90000 ∧ settled n (obs (k + i)) = true := by
  intro k elapsed
  induction k, elapsed using awaitFrom.induct obs n with
  | case1 k elapsed hlt hset =>
    rw [awaitFrom, if_pos hlt, if_pos hset]
    constructor
    · intro _
      exact ⟨0, by omega, by simpa using hset⟩
    · intro _
      rfl
  | case2 k elapsed hlt hset ih =>
    rw [awaitFrom, if_pos hlt, if_neg hset]
    rw [ih]
    constructor
    · rintro ⟨i, hi, hs⟩
      refine ⟨i + 1, by omega, ?_⟩
      have hidx : k + 1 + i = k + (i + 1) := by omega
      rwa [hidx] at hs
    · rintro ⟨i, hi, hs⟩
      cases i with
      | zero =>
        rw [Nat.add_zero] at hs
        exact absurd hs hset
      | succ j =>
        refine ⟨j, by omega, ?_⟩
        have hidx : k + (j + 1) = k + 1 + j := by omega
        rwa [hidx] at hs
  | case3 k elapsed hge =>
    rw [awaitFrom, if_neg hge]
    constructor
    · intro h
      exact absurd h (by simp)
    · rintro ⟨i, hi, -⟩
      omega

/-! ### Orchestrator-loop lemmas -/

lemma processSet_eq_of_uploads_ok {j : SetJob} {g : String}
    (h1 : j.env.uploadGlareRes.ok = true)
    (h2 : j.env.uploadClearRes.ok = true)
    (hg : j.env.files.find?
        (fun f => strStartsWith f "glare" && strEndsWith f ".jpg") = some g) :
    processSet j =
      Except.ok (processResultStep ((sprite j.env.driverRes).splitOn "\n")) := by
  rw [processSet, hg]
  have hup1 : uploadFile j.env.uploadGlareRes = Except.ok () := by
    simp [uploadFile, execSyncM, h1]
  have hup2 : uploadFile j.env.uploadClearRes = Except.ok () := by
    simp [uploadFile, execSyncM, h2]
  cases hr : j.set.hasReference with
  | false => simp [hr, hup1]
  | true =>
    cases hc : j.env.files.find?
        (fun f => strStartsWith f "clear" && strEndsWith f ".jpg") with
    | none => simp [hr, hc, hup1, Bind.bind, Except.bind, Pure.pure, Except.pure]
    | some c => simp [hr, hc, hup1, hup2, Bind.bind, Except.bind, Pure.pure, Except.pure]

lemma processSet_isOk_of_uploads_ok {j : SetJob}
    (h1 : j.env.uploadGlareRes.ok = true)
    (h2 : j.env.uploadClearRes.ok = true) :
    (processSet j).isOk = true := by
  cases hg : j.env.files.find?
      (fun f => strStartsWith f "glare" && strEndsWith f ".jpg") with
  | none => rw [processSet, hg]; rfl
  | some g => rw [processSet_eq_of_uploads_ok h1 h2 hg]; rfl

lemma runJobs_isOk_of_all {sets : List SetJob}
    (h : ∀ j ∈ sets, (processSet j).isOk = true) :
    (runJobs sets).isOk = true := by
  induction sets with
  | nil => rfl
  | cons j rest ih =>
    have hj := h j (List.mem_cons_self j rest)
    have hrest := ih fun x hx => h x (List.mem_cons_of_mem j hx)
    rw [runJobs]
    cases hpj : processSet j with
    | error e => rw [hpj] at hj; exact absurd hj (by simp [Except.isOk, Except.toBool])
    | ok v =>
      cases hrj : runJobs rest with
      | error e => rw [hrj] at hrest; exact absurd hrest (by simp [Except.isOk, Except.toBool])
      | ok counts =>
        cases v with
        | none =>
          simp [hpj, hrj, Except.isOk, Except.toBool, Bind.bind, Except.bind, Pure.pure, Except.pure]
        | some buf =>
          simp [hpj, hrj, Except.isOk, Except.toBool, Bind.bind, Except.bind, Pure.pure, Except.pure]

/-! ### Base64 computation lemmas -/

lemma b64val_A : b64val 'A' = some 0 := by decide

lemma filterMap_b64val_replicate_A (n : Nat) :
    (List.replicate n 'A').filterMap b64val = List.replicate n 0 := by
  induction n with
  | zero => rfl
  | succ m ih =>
    rw [List.replicate_succ, List.filterMap_cons, b64val_A, List.replicate_succ, ih]

lemma b64bytes_cons_zeros (l : List Nat) :
    b64bytes (0 :: 0 :: 0 :: 0 :: l) = 0 :: 0 :: 0 :: b64bytes l := rfl

lemma b64bytes_replicate_zero (n : Nat) :
    b64bytes (List.replicate (4 * n) 0) = List.replicate (3 * n) 0 := by
  induction n with
  | zero => rfl
  | succ m ih =>
    have h4 : 4 * (m + 1) = 4 * m + 4 := by ring
    have h3 : 3 * (m + 1) = 3 * m + 3 := by ring
    rw [h4, h3]
    have hrep4 : List.replicate (4 * m + 4) (0 : Nat) =
        0 :: 0 :: 0 :: 0 :: List.replicate (4 * m) 0 := rfl
    have hrep3 : List.replicate (3 * m + 3) (0 : Nat) =
        0 :: 0 :: 0 :: List.replicate (3 * m) 0 := rfl
    rw [hrep4, b64bytes_cons_zeros, ih, hrep3]

lemma b64decode_replicate_A :
    b64decode (String.mk (List.replicate 40000 'A')) = List.replicate 30000 (0 : Nat) := by
  show b64bytes ((List.replicate 40000 'A').filterMap b64val) = _
  rw [filterMap_b64val_replicate_A]
  have h1 : (40000 : Nat) = 4 * 10000 := by norm_num
  have h2 : (30000 : Nat) = 3 * 10000 := by norm_num
  rw [h1, h2, b64bytes_replicate_zero]

/-! ## Claim theorems -/

/-- C3: for every candidate directory of the corpus, discovery includes it
as a Job iff a glare-prefixed `.jpg` input is present and no
`gemini_result`-prefixed output artifact exists; in particular a
directory with no glare-prefixed file is excluded regardless of category,
and a directory holding a result file is excluded. -/
theorem discovery_includes_iff (corp : Corpus) (c : Category) (es : List DirEntry)
    (e : DirEntry) (hes : entriesOf corp c = some es)
    (hnd : (es.map DirEntry.name).Nodup) (he : e ∈ es) :
    (mkSet c e ∈ findUnprocessedSets corp ↔
      (e.isDir = true ∧ hasGlare e.files = true ∧ hasResult e.files = false))
    ∧ ((∀ f ∈ e.files, strStartsWith f "glare" = false) →
        mkSet c e ∉ findUnprocessedSets corp)
    ∧ (hasResult e.files = true → mkSet c e ∉ findUnprocessedSets corp) := by
  have hiff := mkSet_mem_findUnprocessedSets_iff hes hnd he
  have hiff2 : mkSet c e ∈ findUnprocessedSets corp ↔
      (e.isDir = true ∧ hasGlare e.files = true ∧ hasResult e.files = false) := by
    rw [hiff]
    simp [Bool.and_eq_true, Bool.not_eq_true', and_assoc]
  refine ⟨hiff2, ?_, ?_⟩
  · intro hno hmem
    have hglare := (hiff2.mp hmem).2.1
    rw [hasGlare_eq_false_of_no_glare hno] at hglare
    exact Bool.false_ne_true hglare
  · intro hres hmem
    have hfalse := (hiff2.mp hmem).2.2
    rw [hres] at hfalse
    exact absurd hfalse (by simp)

/-- C3 witness: a directory holding only `glare.jpg` is discovered. -/
theorem discovery_includes_iff_witness :
    mkSet Category.with_reference c3Entry ∈ findUnprocessedSets c3Corpus :=
  ((discovery_includes_iff c3Corpus Category.with_reference [c3Entry] c3Entry rfl
      (by decide) (by decide)).1).mpr (by decide)

/-- C10: discovery requires the primary input name to start with `glare`
and end with `.jpg` (a glare-prefixed file of another extension does not
qualify), whereas any `gemini_result`-prefixed file blocks the directory
regardless of its extension. -/
theorem discovery_extension_rules (corp : Corpus) (c : Category)
    (es : List DirEntry) (e : DirEntry) (hes : entriesOf corp c = some es)
    (hnd : (es.map DirEntry.name).Nodup) (he : e ∈ es) :
    ((∃ f ∈ e.files, strStartsWith f "glare" = true) →
      (∀ f ∈ e.files, ¬(strStartsWith f "glare" = true ∧ strEndsWith f ".jpg" = true)) →
      mkSet c e ∉ findUnprocessedSets corp)
    ∧ (∀ f ∈ e.files, strStartsWith f "gemini_result" = true →
        mkSet c e ∉ findUnprocessedSets corp) := by
  have hiff := mkSet_mem_findUnprocessedSets_iff hes hnd he
  constructor
  · intro _ hnojpg hmem
    have hcond := hiff.mp hmem
    rw [Bool.and_eq_true, Bool.and_eq_true] at hcond
    have hglare := hcond.1.2
    rw [hasGlare_eq_false_of_no_glare_jpg hnojpg] at hglare
    exact Bool.false_ne_true hglare
  · intro f hf hres hmem
    have hcond := hiff.mp hmem
    rw [Bool.and_eq_true] at hcond
    have hnores := hcond.2
    rw [hasResult_eq_true_of_mem hf hres] at hnores
    exact absurd hnores (by simp)

/-- C10 witness: a directory whose only file is `glare.png` is skipped. -/
theorem discovery_extension_rules_witness :
    mkSet Category.with_reference c10Entry ∉ findUnprocessedSets c10Corpus :=
  (discovery_extension_rules c10Corpus Category.with_reference [c10Entry] c10Entry rfl
      (by decide) (by decide)).1 (by decide) (by decide)

/-- C7: the driver exits non-zero exactly on the Failed terminations:
missing `/tmp/input/glare.jpg`, the 3-minute timeout race firing, the
prompt input area not found, or the four-method extraction chain
yielding no accepted buffer; and the exit status is always 0 or 1. -/
theorem driver_exit_nonzero_iff (e : DriverEnv) :
    (driverExit e = 1 ↔
      (e.glareExists = false ∨ e.timeoutFires = true ∨ e.inputAreaVisible = false ∨
        runChainOn e.images e.directDownload = none))
    ∧ (driverExit e = 0 ∨ driverExit e = 1) := by
  constructor
  · cases hg : e.glareExists with
    | false => simp [driverExit, driverRun, hg]
    | true =>
      cases ht : e.timeoutFires with
      | true => simp [driverExit, driverRun, hg, ht]
      | false =>
        cases hi : e.inputAreaVisible with
        | false => simp [driverExit, driverRun, hg, ht, hi]
        | true =>
          cases hc : runChainOn e.images e.directDownload with
          | some buf => simp [driverExit, driverRun, extractionResult, hg, ht, hi, hc]
          | none => simp [driverExit, driverRun, extractionResult, hg, ht, hi, hc]
  · cases hres : (driverRun e).result with
    | ok b => left; simp [driverExit, hres]
    | error m => right; simp [driverExit, hres]

/-- C5: in reference mode with the reference file absent, the driver
keeps exactly one upload path (the glare image), uses the no-reference
prompt template, logs the degradation note, behaves as the no-reference
mode, and does not fail the Job for this reason — its outcome is the
extraction outcome. -/
theorem reference_degrades_gracefully (e : DriverEnv)
    (href : e.withReference = true) (hclear : e.clearExists = false)
    (hglare : e.glareExists = true) :
    selectInputs e =
      (["/tmp/input/glare.jpg"], PROMPT_WITHOUT_REFERENCE,
        ["Reference image not found, proceeding without"])
    ∧ (driverRun e).imagePaths = ["/tmp/input/glare.jpg"]
    ∧ (driverRun e).prompt = PROMPT_WITHOUT_REFERENCE
    ∧ (driverRun e).logs = ["Reference image not found, proceeding without"]
    ∧ (driverRun e).result = (driverRun { e with withReference := false }).result
    ∧ (e.timeoutFires = false → e.inputAreaVisible = true →
        (driverRun e).result = extractionResult e) := by
  have hsel : selectInputs e =
      (["/tmp/input/glare.jpg"], PROMPT_WITHOUT_REFERENCE,
        ["Reference image not found, proceeding without"]) := by
    simp [selectInputs, href, hclear]
  have hsel2 : selectInputs { e with withReference := false } =
      (["/tmp/input/glare.jpg"], PROMPT_WITHOUT_REFERENCE,
        ["Mode: without reference image"]) := by
    simp [selectInputs]
  refine ⟨hsel, ?_, ?_, ?_, ?_, ?_⟩ <;>
    cases ht : e.timeoutFires <;> cases hi : e.inputAreaVisible <;>
      simp [driverRun, extractionResult, hglare, ht, hi, hsel, hsel2]

/-- C5 witness: the degradation conclusions at a concrete environment. -/
theorem reference_degrades_gracefully_witness :
    (driverRun c5Env).imagePaths = ["/tmp/input/glare.jpg"]
    ∧ (driverRun c5Env).prompt = PROMPT_WITHOUT_REFERENCE :=
  have h := reference_degrades_gracefully c5Env rfl rfl rfl
  ⟨h.2.1, h.2.2.1⟩

/-- C6: the response wait settles exactly when one of the 18 polls (5000
ms apart, within the 90000 ms ceiling) observes the joint stop condition;
and when no poll settles, the wait reports false and the driver still
proceeds to extraction — the outcome is the extraction outcome, never a
wait-induced failure. -/
theorem awaiting_response_polls_then_extracts (e : DriverEnv) :
    (awaitResponse e.obs e.initialImageCount = true ↔
      ∃ i, i < 18 ∧ settled e.initialImageCount (e.obs i) = true)
    ∧ ((∀ i, i < 18 → settled e.initialImageCount (e.obs i) = false) →
        awaitResponse e.obs e.initialImageCount = false
        ∧ (e.glareExists = true → e.timeoutFires = false → e.inputAreaVisible = true →
            (driverRun e).result = extractionResult e)) := by
  have hiff := awaitFrom_true_iff e.obs e.initialImageCount 0 0
  have hiff2 : awaitResponse e.obs e.initialImageCount = true ↔
      ∃ i, i < 18 ∧ settled e.initialImageCount (e.obs i) = true := by
    rw [awaitResponse, hiff]
    constructor
    · rintro ⟨i, hi, hs⟩
      exact ⟨i, by omega, by simpa using hs⟩
    · rintro ⟨i, hi, hs⟩
      exact ⟨i, by omega, by simpa using hs⟩
  refine ⟨hiff2, ?_⟩
  intro hnone
  constructor
  · cases haw : awaitResponse e.obs e.initialImageCount with
    | false => rfl
    | true =>
      rcases hiff2.mp haw with ⟨i, hi, hs⟩
      rw [hnone i hi] at hs
      exact absurd hs (by simp)
  · intro hg ht hi
    simp [driverRun, hg, ht, hi]

/-- C6 witness: a never-settling page: the ceiling elapses and the driver
still reaches extraction. -/
theorem awaiting_response_witness :
    awaitResponse c6Env.obs c6Env.initialImageCount = false
    ∧ (driverRun c6Env).result = extractionResult c6Env :=
  have h := (awaiting_response_polls_then_extracts c6Env).2 (fun _ _ => rfl)
  ⟨h.1, h.2 rfl rfl rfl⟩

/-- C1 counterexample: a 100-byte buffer captured by method 1 (hover
download) is declared a success and written to the output path, though
its size is far below the 30,000-byte threshold — methods 1 and 2 apply
no size guard. -/
theorem extraction_chain_counterexample :
    runChainOn [c1Img] none = some c1SmallBuf
    ∧ (driverRun c1Env).result = Except.ok c1SmallBuf
    ∧ c1SmallBuf.length ≤ 30000 := by
  have hb : bigBox c1Img = true := by
    simp [bigBox, c1Img]
    norm_num
  have h1 : runChainOn [c1Img] none = some c1SmallBuf := by
    simp [runChainOn, method1, hb, List.findSome?_cons]
    rfl
  refine ⟨h1, ?_, ?_⟩
  · simp [driverRun, c1Env, extractionResult, h1]
  · simp [c1SmallBuf, List.length_replicate]

/-- C1 as amended: only methods 3 (authenticated fetch) and 4 (canvas
re-draw) subject their buffer to the 30,000-byte acceptance guard — any
buffer they return exceeds 30,000 bytes, a smaller one makes the chain
proceed; methods 1 and 2 accept any captured download without a size
check. -/
theorem extraction_chain_amended (imgs : List Img) (buf : List Nat)
    (h : method3 imgs = some buf ∨ method4 imgs = some buf) :
    30000 < buf.length := by
  rcases h with h | h
  · rw [method3] at h
    rcases exists_of_findSome_eq_some h with ⟨i, -, hi⟩
    by_cases hbb : bigBox i = true
    · rw [if_pos hbb] at hi
      exact acceptLarge_eq_some hi
    · rw [if_neg hbb] at hi
      exact absurd hi (by simp)
  · rw [method4] at h
    rcases exists_of_findSome_eq_some h with ⟨i, -, hi⟩
    by_cases hbb : bigBox i = true
    · rw [if_pos hbb] at hi
      exact acceptLarge_eq_some hi
    · rw [if_neg hbb] at hi
      exact absurd hi (by simp)

/-- C1 amended witness: a successful method-3 fetch of 30,001 bytes. -/
theorem extraction_chain_amended_witness :
    30000 < (List.replicate 30001 (0 : Nat)).length := by
  apply extraction_chain_amended [c1BigImg] (List.replicate 30001 0)
  left
  have hb : bigBox c1BigImg = true := by
    show (!(decide ((200 : ℚ) < 150) || decide ((200 : ℚ) < 150))) = true
    have h1 : ¬((200 : ℚ) < 150) := by norm_num
    simp only [decide_eq_false h1]
    rfl
  have hlen : 30000 < (List.replicate 30001 (0 : Nat)).length := by
    rw [List.length_replicate]
    norm_num
  have hacc : acceptLarge c1BigImg.fetchData = some (List.replicate 30001 0) := by
    show (if 30000 < (List.replicate 30001 (0 : Nat)).length
        then some (List.replicate 30001 (0 : Nat)) else none) =
      some (List.replicate 30001 (0 : Nat))
    exact if_pos hlen
  have hms : method3 [c1BigImg] =
      (if bigBox c1BigImg then acceptLarge c1BigImg.fetchData else none) := by
    rw [method3]
    show List.findSome? _ [c1BigImg] = _
    exact findSome_singleton _ _
  rw [hms, if_pos hb]
  exact hacc

/-- C9 as amended: every candidate-iterating method visits exactly the
images whose bounding box is at least 150×150 (the guard rejects a side
strictly below 150, so a box of exactly 150×150 is considered), most
recent first, first accepted result winning. -/
theorem candidate_filter_amended (imgs : List Img) (i : Img) (w h : ℚ)
    (hbox : i.box = some (w, h)) :
    method1 imgs = (imgs.reverse.filter bigBox).findSome? (fun im => im.hoverDownload)
    ∧ method3 imgs =
        (imgs.reverse.filter bigBox).findSome? (fun im => acceptLarge im.fetchData)
    ∧ method4 imgs =
        (imgs.reverse.filter bigBox).findSome? (fun im => acceptLarge im.canvasData)
    ∧ (bigBox i = true ↔ 150 ≤ w ∧ 150 ≤ h) := by
  refine ⟨?_, ?_, ?_, ?_⟩
  · rw [method1, findSome_guard_eq_filter]
  · rw [method3, findSome_guard_eq_filter]
  · rw [method4, findSome_guard_eq_filter]
  · simp only [bigBox, hbox]
    simp [not_lt]

/-- C9 amended witness: the box guard at a concrete 200×200 candidate. -/
theorem candidate_filter_amended_witness :
    bigBox c9WitImg = true ↔ (150 : ℚ) ≤ 200 ∧ (150 : ℚ) ≤ 200 :=
  (candidate_filter_amended [] c9WitImg 200 200 rfl).2.2.2

/-- C9 counterexample: an image whose bounding box is exactly 150×150 is
considered and its accepted fetch wins, although 150 does not exceed
150 — the claim's strict reading fails at the boundary. -/
theorem candidate_filter_counterexample :
    method3 [c9Img] = some (List.replicate 30001 0) ∧ ¬((150 : ℚ) < 150) := by
  constructor
  · have hb : bigBox c9Img = true := by
      show (!(decide ((150 : ℚ) < 150) || decide ((150 : ℚ) < 150))) = true
      have h1 : ¬((150 : ℚ) < 150) := lt_irrefl 150
      simp only [decide_eq_false h1]
      rfl
    have hlen : 30000 < (List.replicate 30001 (0 : Nat)).length := by
      rw [List.length_replicate]
      norm_num
    have hacc : acceptLarge c9Img.fetchData = some (List.replicate 30001 0) := by
      show (if 30000 < (List.replicate 30001 (0 : Nat)).length
          then some (List.replicate 30001 (0 : Nat)) else none) =
        some (List.replicate 30001 (0 : Nat))
      exact if_pos hlen
    have hms : method3 [c9Img] =
        (if bigBox c9Img then acceptLarge c9Img.fetchData else none) := by
      rw [method3]
      show List.findSome? _ [c9Img] = _
      exact findSome_singleton _ _
    rw [hms, if_pos hb]
    exact hacc
  · norm_num

/-- C4 as amended: with healthy uploads and a glare input present,
`processSet` returns exactly what the result-extraction step yields on
the driver's stdout; the result step succeeds iff the stdout holds a
`BASE64_RESULT:` line whose first occurrence decodes to at least 30,000
bytes (a buffer strictly below 30,000 is rejected; exactly 30,000 is
accepted and written), and fails — counting the Job failed — otherwise. -/
theorem result_write_amended (j : SetJob) (lines : List String)
    (buf : List Nat) (l : String)
    (h1 : j.env.uploadGlareRes.ok = true)
    (h2 : j.env.uploadClearRes.ok = true)
    (h3 : (j.env.files.find?
        (fun f => strStartsWith f "glare" && strEndsWith f ".jpg")).isSome = true) :
    processSet j = Except.ok (processResultStep ((sprite j.env.driverRes).splitOn "\n"))
    ∧ (processResultStep lines = some buf →
        30000 ≤ buf.length ∧
          ∃ l2 ∈ lines, strStartsWith l2 resultMarker = true ∧
            buf = b64decode (stripMarker l2))
    ∧ ((∀ l2 ∈ lines, strStartsWith l2 resultMarker = false) →
        processResultStep lines = none)
    ∧ (lines.find? (fun l2 => strStartsWith l2 resultMarker) = some l →
        30000 ≤ (b64decode (stripMarker l)).length →
        processResultStep lines = some (b64decode (stripMarker l))) := by
  refine ⟨?_, ?_, ?_, ?_⟩
  · rcases Option.isSome_iff_exists.mp h3 with ⟨g, hg⟩
    exact processSet_eq_of_uploads_ok h1 h2 hg
  · intro hsome
    rw [processResultStep] at hsome
    cases hfind : lines.find? (fun l2 => strStartsWith l2 resultMarker) with
    | none =>
      rw [hfind] at hsome
      exact absurd hsome (by simp)
    | some l2 =>
      rw [hfind] at hsome
      have hsome2 : (if (b64decode (stripMarker l2)).length < 30000 then none
          else some (b64decode (stripMarker l2))) = some buf := hsome
      by_cases hlen : (b64decode (stripMarker l2)).length < 30000
      · rw [if_pos hlen] at hsome2
        exact absurd hsome2 (by simp)
      · rw [if_neg hlen] at hsome2
        have hbuf : b64decode (stripMarker l2) = buf := Option.some_injective _ hsome2
        subst hbuf
        have hpred := List.find?_some hfind
        exact ⟨by omega, l2, List.mem_of_find?_eq_some hfind, hpred, rfl⟩
  · intro hnone
    rw [processResultStep]
    have hfind : lines.find? (fun l2 => strStartsWith l2 resultMarker) = none :=
      List.find?_eq_none.mpr fun x hx => by rw [hnone x hx]; simp
    rw [hfind]
  · intro hfind hlen
    rw [processResultStep, hfind]
    show (if (b64decode (stripMarker l)).length < 30000 then none
        else some (b64decode (stripMarker l))) = some (b64decode (stripMarker l))
    rw [if_neg (by omega)]

/-- C4 amended witness: a healthy job whose driver output carries no
marker line reduces to the result step on its stdout. -/
theorem result_write_amended_witness :
    processSet c4Job =
      Except.ok (processResultStep ((sprite c4Job.env.driverRes).splitOn "\n")) :=
  (result_write_amended c4Job ["x"] [] "x" rfl rfl (by decide)).1

/-- C4 counterexample: a `BASE64_RESULT:` line decoding to exactly 30,000
bytes is accepted and written, although its size does not exceed 30,000
bytes — the orchestrator guard is `< 30000`, not `≤ 30000`. -/
theorem result_write_counterexample :
    processResultStep [c4Line] = some (List.replicate 30000 0)
    ∧ ¬(30000 < (List.replicate 30000 (0 : Nat)).length) := by
  have hdata : c4Line.data = resultMarker.data ++ List.replicate 40000 'A' := rfl
  have hstart : strStartsWith c4Line resultMarker = true := by
    rw [strStartsWith, List.isPrefixOf_iff_prefix, hdata]
    exact List.prefix_append _ _
  have hstrip : stripMarker c4Line = String.mk (List.replicate 40000 'A') := by
    have hdrop : c4Line.data.drop resultMarker.data.length = List.replicate 40000 'A' := by
      rw [hdata, List.drop_left]
    rw [stripMarker, hdrop]
  constructor
  · have hred : processResultStep [c4Line] =
        if (b64decode (stripMarker c4Line)).length < 30000 then none
        else some (b64decode (stripMarker c4Line)) := by
      rw [processResultStep,
        @List.find?_cons_of_pos String (fun l => strStartsWith l resultMarker) c4Line [] hstart]
    rw [hred, hstrip, b64decode_replicate_A]
    rw [if_neg (by rw [List.length_replicate]; omega)]
  · rw [List.length_replicate]
    omega

/-- C2 counterexample: a failing glare upload is an uncaught exception —
the job loop aborts with the error instead of recording the failure and
proceeding to the queued next job, and the orchestrator exits 1. -/
theorem upload_failure_aborts_run :
    runJobs [c2BadJob, c2NextJob] = Except.error ""
    ∧ orchestratorRun (Except.ok [c2BadJob, c2NextJob]) false none = 1 := by
  constructor <;> rfl

/-- C2 as amended: restore, prepare and exec failures are caught by the
`sprite`/`spriteCmd` wrappers (surfacing the partial stdout, never
throwing), and with the upload commands succeeding the job loop always
completes with success/failure counts, whatever those outcomes are; the
file upload alone is unwrapped, and its failure aborts the whole run. -/
theorem wrapped_exec_failures_amended (sets : List SetJob)
    (hup : ∀ j ∈ sets, j.env.uploadGlareRes.ok = true ∧ j.env.uploadClearRes.ok = true) :
    (runJobs sets).isOk = true
    ∧ (∀ r : CmdResult, r.ok = false → sprite r = r.stdout ∧ spriteCmd r = r.stdout) := by
  constructor
  · exact runJobs_isOk_of_all fun j hj =>
      processSet_isOk_of_uploads_ok (hup j hj).1 (hup j hj).2
  · intro r hr
    constructor <;> simp [sprite, spriteCmd, execSyncM, hr]

/-- C2 amended witness: a job whose remote driver invocation fails still
leaves the loop completed. -/
theorem wrapped_exec_failures_witness : (runJobs [c2OkJob]).isOk = true :=
  (wrapped_exec_failures_amended [c2OkJob] (by
    intro j hj
    rw [List.mem_singleton] at hj
    subst hj
    exact ⟨rfl, rfl⟩)).1

/-- C8: the orchestrator exits 1 when the discovery call throws, and
exits 0 on every normal completion — every job's `processSet` returning
without an exception — regardless of how many of those jobs failed. -/
theorem orchestrator_exit_codes (sets : List SetJob) (dryRun : Bool)
    (singleSet : Option String) (msg : String)
    (hall : ∀ j ∈ applyFilter singleSet sets, (processSet j).isOk = true) :
    orchestratorRun (Except.error msg) dryRun singleSet = 1
    ∧ orchestratorRun (Except.ok sets) dryRun singleSet = 0 := by
  constructor
  · rfl
  · have hok : (runJobs (applyFilter singleSet sets)).isOk = true :=
      runJobs_isOk_of_all hall
    rw [orchestratorRun]
    cases hrj : runJobs (applyFilter singleSet sets) with
    | error e =>
      rw [hrj] at hok
      exact absurd hok (by simp [Except.isOk, Except.toBool])
    | ok counts =>
      simp only [hrj]
      split_ifs <;> rfl

/-- C8 witness: one job that fails (no result in the driver output) still
yields exit 0, while a discovery crash yields exit 1. -/
theorem orchestrator_exit_codes_witness :
    orchestratorRun (Except.error "fs crash") false none = 1
    ∧ orchestratorRun (Except.ok [c8Job]) false none = 0 :=
  orchestrator_exit_codes [c8Job] false none "fs crash" (by
    intro j hj
    rw [applyFilter, List.mem_singleton] at hj
    subst hj
    exact processSet_isOk_of_uploads_ok rfl rfl)

end Glare
